import Mathlib

/-!
Shallow embedding of the Philips Hue integration driver
(`unfoldedcircle/integration-philipshue`), covering the unit converters
(`src/util.ts`), the REST client retry loop and bridge probes
(`src/lib/hue-api/api.ts`), the light-resource request bodies
(`src/lib/hue-api/light-resource.ts`), the setup hub-discovery filter
(`src/lib/setup.ts`) and the state-synchronization engine
(`src/lib/philips-hue.ts`).

Modelling conventions:
* JavaScript numbers are modelled as rationals (`ℚ`); every constant in the
  source is an exact decimal literal, so exact rational arithmetic mirrors the
  intended real-number semantics.
* `Math.round x` is `⌊x + 1/2⌋` (JS rounds half away from zero towards `+∞`
  for the values relevant here), `Math.max`/`Math.min` are `max`/`min`.
* The JS remainder operator `%` is truncated remainder (`Int.tmod`), which
  agrees with Euclidean `emod` on non-negative operands.
* JS strings are modelled as `List Char`; `toLowerCase` is
  `List.map Char.toLower`, `replace(/:/g, "")` is a filter, `substring` is
  `take`/`drop`.
-/

/-- JS `Math.round`: round half towards `+∞`. -/
def jsRound (q : ℚ) : ℤ := ⌊q + 1 / 2⌋

/-- JS `%` remainder (sign of the dividend), i.e. truncated remainder. -/
def jsRem (a b : ℤ) : ℤ := Int.tmod a b

/-- Source `util.ts` `mirekToColorTemp`: `(colorTemp - 153) / 347 * 100`. -/
def mirekToColorTemp (colorTemp : ℚ) : ℚ :=
  (colorTemp - 153) / 347 * 100

/-- Source `util.ts` `colorTempToMirek`: `Math.round(colorTemp / 100 * 347 + 153)`. -/
def colorTempToMirek (colorTemp : ℚ) : ℤ :=
  jsRound (colorTemp / 100 * 347 + 153)

/-- Source `util.ts` `brightnessToPercent`: `Math.max(1, Math.round(b / 255 * 100))`. -/
def brightnessToPercent (brightness : ℚ) : ℤ :=
  max 1 (jsRound (brightness / 255 * 100))

/-- Source `util.ts` `percentToBrightness`: `Math.max(1, Math.round(p / 100 * 255))`. -/
def percentToBrightness (percent : ℚ) : ℤ :=
  max 1 (jsRound (percent / 100 * 255))

/-- Lemma: `jsRound` is the identity on integers. -/
theorem jsRound_intCast (n : ℤ) : jsRound (n : ℚ) = n := by
  unfold jsRound
  rw [Int.floor_int_add]
  norm_num

theorem jsRound_nonneg {q : ℚ} (h : 0 ≤ q) : 0 ≤ jsRound q := by
  unfold jsRound
  have : (0 : ℤ) = ⌊(0 : ℚ)⌋ := by norm_num
  rw [this]
  exact Int.floor_le_floor (by linarith)

theorem jsRound_le_of_le {q : ℚ} {n : ℤ} (h : q ≤ n) : jsRound q ≤ n := by
  unfold jsRound
  have h2 : jsRound q ≤ ⌊(n : ℚ) + 1 / 2⌋ := Int.floor_le_floor (by linarith)
  rw [Int.floor_int_add] at h2
  have h3 : ⌊(1 / 2 : ℚ)⌋ = 0 := by norm_num
  unfold jsRound at h2
  omega

/-- Result record of `util.ts` `convertXYtoHSV`. -/
structure HSV where
  hue : ℤ
  sat : ℤ
deriving DecidableEq

/-- The linear-RGB channels computed inside `util.ts` `convertXYtoHSV`:
`X = (x / y) * Y`, `Z = ((1 - x - y) / y) * Y` with `Y = lightness`, then the
sRGB matrix rows `R`, `G`, `B`. -/
structure RGB where
  r : ℚ
  g : ℚ
  b : ℚ
deriving DecidableEq

def linearRGB (x y lightness : ℚ) : RGB :=
  { r := 3.2406 * (x / y * lightness) - 1.5372 * lightness -
         0.4986 * ((1 - x - y) / y * lightness)
    g := -0.9689 * (x / y * lightness) + 1.8758 * lightness +
         0.0415 * ((1 - x - y) / y * lightness)
    b := 0.0557 * (x / y * lightness) - 0.204 * lightness +
         1.057 * ((1 - x - y) / y * lightness) }

/-- The `H` if/else chain of `convertXYtoHSV` (with `V = max(R,G,B)` and
`minRGB = min(R,G,B)` inlined). -/
def hueH (R G B : ℚ) : ℚ :=
  if max R (max G B) = min R (min G B) then 0
  else if max R (max G B) = R ∧ B ≤ G then
    60 * ((G - B) / (max R (max G B) - min R (min G B)))
  else if max R (max G B) = R ∧ G < B then
    60 * ((G - B) / (max R (max G B) - min R (min G B))) + 360
  else if max R (max G B) = G then
    60 * ((B - R) / (max R (max G B) - min R (min G B))) + 120
  else if max R (max G B) = B then
    60 * ((R - G) / (max R (max G B) - min R (min G B))) + 240
  else 0

/-- Source `ScaledS = Math.round(S * 255)` with `S = (V - minRGB) / V`. -/
def satScaled (R G B : ℚ) : ℤ :=
  jsRound ((max R (max G B) - min R (min G B)) / max R (max G B) * 255)

/-- Source `util.ts` `convertXYtoHSV(x, y, lightness = 1)`:
`{hue: Math.round(H) % 360, sat: Math.max(0, Math.min(ScaledS, 255))}`.
The JS default `lightness = 1` is passed explicitly by callers here. -/
def convertXYtoHSV (x y : ℚ) (lightness : ℚ) : HSV :=
  { hue := jsRem (jsRound (hueH (linearRGB x y lightness).r
      (linearRGB x y lightness).g (linearRGB x y lightness).b)) 360
    sat := max 0 (min (satScaled (linearRGB x y lightness).r
      (linearRGB x y lightness).g (linearRGB x y lightness).b) 255) }

theorem hueH_bounds (R G B : ℚ) : 0 ≤ hueH R G B ∧ hueH R G B ≤ 360 := by
  unfold hueH
  have hGV : G ≤ max R (max G B) := le_trans (le_max_left G B) (le_max_right _ _)
  have hBV : B ≤ max R (max G B) := le_trans (le_max_right G B) (le_max_right _ _)
  have hRV : R ≤ max R (max G B) := le_max_left _ _
  have hmR : min R (min G B) ≤ R := min_le_left _ _
  have hmG : min R (min G B) ≤ G := le_trans (min_le_right _ _) (min_le_left _ _)
  have hmB : min R (min G B) ≤ B := le_trans (min_le_right _ _) (min_le_right _ _)
  have hmV : min R (min G B) ≤ max R (max G B) := le_trans hmR hRV
  split_ifs with h1 h2 h3 h4 h5
  · norm_num
  ·
    have hpos : 0 < max R (max G B) - min R (min G B) := by
      rcases lt_or_eq_of_le hmV with h | h
      · linarith
      · exact absurd h.symm h1
    have hq1 : 0 ≤ (G - B) / (max R (max G B) - min R (min G B)) :=
      div_nonneg (by linarith [h2.2]) hpos.le
    have hq2 : (G - B) / (max R (max G B) - min R (min G B)) ≤ 1 := by
      rw [div_le_one hpos]; linarith
    constructor <;> linarith
  ·
    have hpos : 0 < max R (max G B) - min R (min G B) := by
      rcases lt_or_eq_of_le hmV with h | h
      · linarith
      · exact absurd h.symm h1
    have hq1 : -1 ≤ (G - B) / (max R (max G B) - min R (min G B)) := by
      rw [le_div_iff₀ hpos]; linarith
    have hq2 : (G - B) / (max R (max G B) - min R (min G B)) ≤ 0 :=
      div_nonpos_of_nonpos_of_nonneg (by linarith [h3.2]) hpos.le
    constructor <;> linarith
  ·
    have hpos : 0 < max R (max G B) - min R (min G B) := by
      rcases lt_or_eq_of_le hmV with h | h
      · linarith
      · exact absurd h.symm h1
    have hq1 : -1 ≤ (B - R) / (max R (max G B) - min R (min G B)) := by
      rw [le_div_iff₀ hpos]; linarith
    have hq2 : (B - R) / (max R (max G B) - min R (min G B)) ≤ 1 := by
      rw [div_le_one hpos]; linarith
    constructor <;> linarith
  ·
    have hpos : 0 < max R (max G B) - min R (min G B) := by
      rcases lt_or_eq_of_le hmV with h | h
      · linarith
      · exact absurd h.symm h1
    have hq1 : -1 ≤ (R - G) / (max R (max G B) - min R (min G B)) := by
      rw [le_div_iff₀ hpos]; linarith
    have hq2 : (R - G) / (max R (max G B) - min R (min G B)) ≤ 1 := by
      rw [div_le_one hpos]; linarith
    constructor <;> linarith
  · norm_num

/-- The hue published by `convertXYtoHSV` always lies in `[0, 359]`. -/
theorem convertXYtoHSV_hue_mem (x y lightness : ℚ) :
    0 ≤ (convertXYtoHSV x y lightness).hue ∧
    (convertXYtoHSV x y lightness).hue ≤ 359 := by
  simp only [convertXYtoHSV, jsRem]
  have hb := hueH_bounds (linearRGB x y lightness).r (linearRGB x y lightness).g
    (linearRGB x y lightness).b
  have hr0 : 0 ≤ jsRound (hueH (linearRGB x y lightness).r
      (linearRGB x y lightness).g (linearRGB x y lightness).b) :=
    jsRound_nonneg hb.1
  rw [Int.tmod_eq_emod hr0 (by norm_num)]
  refine ⟨Int.emod_nonneg _ (by norm_num), ?_⟩
  have := Int.emod_lt_of_pos (jsRound (hueH (linearRGB x y lightness).r
      (linearRGB x y lightness).g (linearRGB x y lightness).b))
    (show (0 : ℤ) < 360 by norm_num)
  omega

/-- The saturation published by `convertXYtoHSV` always lies in `[0, 255]`. -/
theorem convertXYtoHSV_sat_mem (x y lightness : ℚ) :
    0 ≤ (convertXYtoHSV x y lightness).sat ∧
    (convertXYtoHSV x y lightness).sat ≤ 255 := by
  simp only [convertXYtoHSV]
  exact ⟨le_max_left _ _, max_le (by norm_num) (min_le_right _ _)⟩

/-- In the degenerate case (max channel equals min channel) the hue is 0. -/
theorem convertXYtoHSV_hue_degenerate (x y lightness : ℚ)
    (h : max (linearRGB x y lightness).r
        (max (linearRGB x y lightness).g (linearRGB x y lightness).b) =
      min (linearRGB x y lightness).r
        (min (linearRGB x y lightness).g (linearRGB x y lightness).b)) :
    (convertXYtoHSV x y lightness).hue = 0 := by
  simp only [convertXYtoHSV, jsRem]
  rw [hueH, if_pos h]
  norm_num [jsRound]

/-- Claim C4 (amended): For every input `(x, y, lightness)`, `convertXYtoHSV`
returns a hue in `[0, 359]` and a saturation in `[0, 255]` (the saturation is
scaled by 255, not 100); in the degenerate case where the maximum RGB channel
equals the minimum RGB channel the returned hue is 0. -/
theorem convertXYtoHSV_ranges (x y lightness : ℚ) :
    (0 ≤ (convertXYtoHSV x y lightness).hue ∧
      (convertXYtoHSV x y lightness).hue ≤ 359) ∧
    (0 ≤ (convertXYtoHSV x y lightness).sat ∧
      (convertXYtoHSV x y lightness).sat ≤ 255) ∧
    (max (linearRGB x y lightness).r
        (max (linearRGB x y lightness).g (linearRGB x y lightness).b) =
      min (linearRGB x y lightness).r
        (min (linearRGB x y lightness).g (linearRGB x y lightness).b) →
      (convertXYtoHSV x y lightness).hue = 0) :=
  ⟨convertXYtoHSV_hue_mem x y lightness, convertXYtoHSV_sat_mem x y lightness,
    convertXYtoHSV_hue_degenerate x y lightness⟩

/-- Claim C4 (counterexample): At `(x, y, lightness) = (0.7, 0.3, 1)` the
returned saturation is 255, so it does not lie in `[0, 100]` as claimed. -/
theorem convertXYtoHSV_sat_not_percent :
    (convertXYtoHSV (7 / 10) (3 / 10) 1).sat = 255 ∧
    ¬ (convertXYtoHSV (7 / 10) (3 / 10) 1).sat ≤ 100 := by
  constructor <;>
    norm_num [convertXYtoHSV, linearRGB, satScaled, hueH, jsRound, jsRem,
      max_def, min_def]

/-- Claim C4 (witness): The exact white point of the sRGB matrix used by the
code has all three linear-RGB channels equal, and the hue returned there is
0. -/
theorem convertXYtoHSV_ranges_witness :
    (max (linearRGB (458920148 / 1467529349) (482813371 / 1467529349) 1).r
        (max (linearRGB (458920148 / 1467529349) (482813371 / 1467529349) 1).g
          (linearRGB (458920148 / 1467529349) (482813371 / 1467529349) 1).b) =
      min (linearRGB (458920148 / 1467529349) (482813371 / 1467529349) 1).r
        (min (linearRGB (458920148 / 1467529349) (482813371 / 1467529349) 1).g
          (linearRGB (458920148 / 1467529349) (482813371 / 1467529349) 1).b)) ∧
    (convertXYtoHSV (458920148 / 1467529349) (482813371 / 1467529349) 1).hue = 0 :=
  ⟨by norm_num [linearRGB, max_def, min_def],
    (convertXYtoHSV_ranges (458920148 / 1467529349) (482813371 / 1467529349)
        1).2.2 (by norm_num [linearRGB, max_def, min_def])⟩

/-- Claim C9: For every integer `m` in `[153, 500]`,
`colorTempToMirek (mirekToColorTemp m) = m` exactly. -/
theorem colorTempToMirek_mirekToColorTemp (m : ℤ) (h1 : 153 ≤ m)
    (h2 : m ≤ 500) : colorTempToMirek (mirekToColorTemp (m : ℚ)) = m := by
  unfold colorTempToMirek mirekToColorTemp
  have h : ((m : ℚ) - 153) / 347 * 100 / 100 * 347 + 153 = (m : ℚ) := by
    field_simp
    ring
  rw [h]
  exact jsRound_intCast m

/-- Claim C9 (witness): The round-trip at the concrete mirek value 347. -/
theorem colorTempToMirek_mirekToColorTemp_witness :
    (153 : ℤ) ≤ 347 ∧ (347 : ℤ) ≤ 500 ∧
    colorTempToMirek (mirekToColorTemp ((347 : ℤ) : ℚ)) = 347 :=
  ⟨by norm_num, by norm_num,
    colorTempToMirek_mirekToColorTemp 347 (by norm_num) (by norm_num)⟩

/-- Source `light-resource.ts` `setBrightness` request body:
`dimming.brightness = Math.max(1, Math.min(100, brightness))`. -/
def setBrightnessBody (brightness : ℚ) : ℚ := max 1 (min 100 brightness)

/-- Source `light-resource.ts` `setColorTemperature` request body:
`color_temperature.mirek = Math.max(153, Math.min(500, mirek))`. -/
def setColorTemperatureBody (mirek : ℚ) : ℚ := max 153 (min 500 mirek)

/-- Source `light-resource.ts` `setColor` request body:
`color.xy = {x: Math.max(0, Math.min(1, x)), y: Math.max(0, Math.min(1, y))}`. -/
def setColorBody (x y : ℚ) : ℚ × ℚ :=
  (max 0 (min 1 x), max 0 (min 1 y))

/-- Claim C10: Every device-command request body built by the light resource
layer carries values clamped into the hub-native ranges: `setBrightness`
clamps brightness into `[1, 100]`, `setColorTemperature` clamps mirek into
`[153, 500]`, and `setColor` clamps both `x` and `y` into `[0, 1]`, for all
numeric inputs. -/
theorem lightResource_bodies_clamped (b m x y : ℚ) :
    (1 ≤ setBrightnessBody b ∧ setBrightnessBody b ≤ 100) ∧
    (153 ≤ setColorTemperatureBody m ∧ setColorTemperatureBody m ≤ 500) ∧
    (0 ≤ (setColorBody x y).1 ∧ (setColorBody x y).1 ≤ 1 ∧
      0 ≤ (setColorBody x y).2 ∧ (setColorBody x y).2 ≤ 1) := by
  unfold setBrightnessBody setColorTemperatureBody setColorBody
  refine ⟨⟨le_max_left _ _, max_le (by norm_num) (min_le_left _ _)⟩,
    ⟨le_max_left _ _, max_le (by norm_num) (min_le_left _ _)⟩,
    le_max_left _ _, max_le (by norm_num) (min_le_left _ _),
    le_max_left _ _, max_le (by norm_num) (min_le_left _ _)⟩

/-- Source `util.ts` `normalizeBridgeId` (strings as `List Char`):
lowercase, then
* 17 chars with exactly 5 colons (zeroconf MAC-like shape): strip the colons;
* 16 chars whose `substring(6,10)` is `"fffe"` (nupnp EUI-64 shape): drop the
  middle padding;
* 12 chars: already canonical;
* anything else: logged and returned as-is (after the lowercasing). -/
def normalizeBridgeId (bridgeId : List Char) : List Char :=
  if (bridgeId.map Char.toLower).length = 17 ∧
      ((bridgeId.map Char.toLower).filter (fun ch => ch = ':')).length = 5 then
    (bridgeId.map Char.toLower).filter (fun ch => ch ≠ ':')
  else if (bridgeId.map Char.toLower).length = 16 ∧
      ((bridgeId.map Char.toLower).drop 6).take 4 = ['f', 'f', 'f', 'e'] then
    (bridgeId.map Char.toLower).take 6 ++ (bridgeId.map Char.toLower).drop 10
  else if (bridgeId.map Char.toLower).length = 12 then
    bridgeId.map Char.toLower
  else
    bridgeId.map Char.toLower

/-- Claim C8 (amended): The three documented shapes of the same physical
identifier (colon-delimited MAC-like, middle-`fffe`-padded EUI-64, canonical
12-character short id) normalize to the identical canonical output, and any
unrecognized shape is passed through lowercased but otherwise unchanged —
the function is total (never throws). -/
theorem normalizeBridgeId_shapes (a b c d e f g h i j k l : Char)
    (hlow : ∀ ch ∈ [a, b, c, d, e, f, g, h, i, j, k, l], Char.toLower ch = ch)
    (hcol : ∀ ch ∈ [a, b, c, d, e, f, g, h, i, j, k, l], ch ≠ ':') :
    normalizeBridgeId [a, b, ':', c, d, ':', e, f, ':', g, h, ':', i, j, ':', k, l]
        = [a, b, c, d, e, f, g, h, i, j, k, l] ∧
    normalizeBridgeId [a, b, c, d, e, f, 'f', 'f', 'f', 'e', g, h, i, j, k, l]
        = [a, b, c, d, e, f, g, h, i, j, k, l] ∧
    normalizeBridgeId [a, b, c, d, e, f, g, h, i, j, k, l]
        = [a, b, c, d, e, f, g, h, i, j, k, l] ∧
    (∀ s : List Char,
      ¬ ((s.map Char.toLower).length = 17 ∧
          ((s.map Char.toLower).filter (fun ch => ch = ':')).length = 5) →
      ¬ ((s.map Char.toLower).length = 16 ∧
          ((s.map Char.toLower).drop 6).take 4 = ['f', 'f', 'f', 'e']) →
      (s.map Char.toLower).length ≠ 12 →
      normalizeBridgeId s = s.map Char.toLower) := by
  have ha := hlow a (by simp); have hb := hlow b (by simp)
  have hc := hlow c (by simp); have hd := hlow d (by simp)
  have he := hlow e (by simp); have hf := hlow f (by simp)
  have hg := hlow g (by simp); have hh := hlow h (by simp)
  have hi := hlow i (by simp); have hj := hlow j (by simp)
  have hk := hlow k (by simp); have hl := hlow l (by simp)
  have ha' := hcol a (by simp); have hb' := hcol b (by simp)
  have hc' := hcol c (by simp); have hd' := hcol d (by simp)
  have he' := hcol e (by simp); have hf' := hcol f (by simp)
  have hg' := hcol g (by simp); have hh' := hcol h (by simp)
  have hi' := hcol i (by simp); have hj' := hcol j (by simp)
  have hk' := hcol k (by simp); have hl' := hcol l (by simp)
  refine ⟨?_, ?_, ?_, ?_⟩
  · simp [normalizeBridgeId, List.filter, ha, hb, hc, hd, he, hf, hg, hh, hi,
      hj, hk, hl, ha', hb', hc', hd', he', hf', hg', hh', hi', hj', hk', hl']
  · simp [normalizeBridgeId, ha, hb, hc, hd, he, hf, hg, hh, hi, hj, hk, hl]
  · simp [normalizeBridgeId, ha, hb, hc, hd, he, hf, hg, hh, hi, hj, hk, hl]
  · intro s h1 h2 h3
    unfold normalizeBridgeId
    rw [if_neg h1, if_neg h2, if_neg h3]

/-- Claim C8 (counterexample): An unrecognized 6-character uppercase shape is
not passed through unchanged: the code lowercases it first. -/
theorem normalizeBridgeId_not_unchanged :
    normalizeBridgeId ['A', 'B', 'C', 'D', 'E', 'F'] = ['a', 'b', 'c', 'd', 'e', 'f'] ∧
    normalizeBridgeId ['A', 'B', 'C', 'D', 'E', 'F'] ≠ ['A', 'B', 'C', 'D', 'E', 'F'] := by
  constructor <;> decide

/-- Claim C8 (witness): The three shapes at the concrete bridge id
`001788fffe102201 / 00:17:88:10:22:01 / 001788102201`. -/
theorem normalizeBridgeId_shapes_witness :
    normalizeBridgeId
        ['0', '0', ':', '1', '7', ':', '8', '8', ':', '1', '0', ':', '2', '2', ':', '0', '1']
        = ['0', '0', '1', '7', '8', '8', '1', '0', '2', '2', '0', '1'] ∧
    normalizeBridgeId
        ['0', '0', '1', '7', '8', '8', 'f', 'f', 'f', 'e', '1', '0', '2', '2', '0', '1']
        = ['0', '0', '1', '7', '8', '8', '1', '0', '2', '2', '0', '1'] ∧
    normalizeBridgeId ['0', '0', '1', '7', '8', '8', '1', '0', '2', '2', '0', '1']
        = ['0', '0', '1', '7', '8', '8', '1', '0', '2', '2', '0', '1'] := by
  have h := normalizeBridgeId_shapes '0' '0' '1' '7' '8' '8' '1' '0' '2' '2' '0' '1'
    (by decide) (by decide)
  exact ⟨h.1, h.2.1, h.2.2.1⟩

/-- The `StatusCodes` values used by `api.ts` (from the integration API). -/
inductive StatusCode where
  | ok
  | badRequest
  | unauthorized
  | notFound
  | timeout
  | serviceUnavailable
  | serverError
deriving DecidableEq

/-- Outcome of one underlying HTTP attempt inside `sendRequest`:
either HTTP 2xx with no embedded `errors` array (`success`), HTTP 2xx whose
body embeds a non-empty `errors` array (`embeddedError`), an HTTP error
response with a status code (`httpError`), or a transport failure without a
response (`transportTimeout` for `ECONNABORTED`/`ETIMEDOUT`,
`transportUnreachable` otherwise). -/
inductive AttemptOutcome where
  | success
  | embeddedError
  | httpError (status : ℕ)
  | transportTimeout
  | transportUnreachable
deriving DecidableEq

/-- Source `api.ts` `MAX_RETRIES = 3`. -/
def MAX_RETRIES : ℕ := 3

/-- The HTTP-status switch of `HueApi.handleError`:
`400 → BadRequest`, `401/403 → Unauthorized`, `404 → NotFound`,
otherwise `ServerError`. -/
def classifyHttpStatus (status : ℕ) : StatusCode :=
  if status = 400 then .badRequest
  else if status = 401 ∨ status = 403 then .unauthorized
  else if status = 404 then .notFound
  else .serverError

/-- Observable result of `HueApi.sendRequest`: whether it resolved,
the `HueError.statusCode` on rejection, the HTTP status of the axios error
attached as `cause` (when the `HueError` was built from an HTTP error
response), the number of attempts made, and the list of waits (ms) performed
between attempts. -/
structure SendOutcome where
  success : Bool
  errorCode : Option StatusCode
  causeStatus : Option ℕ
  attempts : ℕ
  delays : List ℕ
deriving DecidableEq

/-- The `while (retries < MAX_RETRIES)` loop of `HueApi.sendRequest`.
`retries` is the loop counter of the source; `fuel` equals
`MAX_RETRIES - retries` (the loop guard) and only drives termination.
Each iteration increments `retries`, waits `250 * (retries - 1)` ms when
`retries > 1`, performs the attempt `outcomes retries` and either resolves,
rethrows the embedded-error `HueError` (ServerError, no axios cause), retries
when the status is 429 or 503 and `retries < MAX_RETRIES` still holds, or
classifies the failure via `handleError`. Normal loop exit (fuel 0) is the
final `ServiceUnavailable` throw carrying the attempt count. -/
def sendRequestGo (outcomes : ℕ → AttemptOutcome) :
    ℕ → ℕ → List ℕ → SendOutcome
  | 0, retries, delays =>
    { success := false, errorCode := some .serviceUnavailable,
      causeStatus := none, attempts := retries, delays := delays }
  | fuel + 1, retries, delays =>
    let r := retries + 1
    let delays' := if 1 < r then delays ++ [250 * (r - 1)] else delays
    match outcomes r with
    | .success =>
      { success := true, errorCode := none, causeStatus := none,
        attempts := r, delays := delays' }
    | .embeddedError =>
      { success := false, errorCode := some .serverError,
        causeStatus := none, attempts := r, delays := delays' }
    | .httpError status =>
      if (status = 429 ∨ status = 503) ∧ r < MAX_RETRIES then
        sendRequestGo outcomes fuel r delays'
      else
        { success := false, errorCode := some (classifyHttpStatus status),
          causeStatus := some status, attempts := r, delays := delays' }
    | .transportTimeout =>
      { success := false, errorCode := some .timeout, causeStatus := none,
        attempts := r, delays := delays' }
    | .transportUnreachable =>
      { success := false, errorCode := some .serviceUnavailable,
        causeStatus := none, attempts := r, delays := delays' }

/-- Source `HueApi.sendRequest`: fails `Unauthorized` immediately when
authentication is required and no `hue-application-key` is set, otherwise
runs the retry loop starting at `retries = 0`. -/
def sendRequest (authRequired hasAuthKey : Bool)
    (outcomes : ℕ → AttemptOutcome) : SendOutcome :=
  if authRequired ∧ ¬ hasAuthKey then
    { success := false, errorCode := some .unauthorized, causeStatus := none,
      attempts := 0, delays := [] }
  else
    sendRequestGo outcomes MAX_RETRIES 0 []

/-- Source `HueApi.is_v2_bridge`: returns `false` without a hub URL; otherwise
issues the unauthenticated `GET /clip/v2/resource` through `sendRequest` and
returns `true` only when that call rejected with a `HueError` whose status is
`Unauthorized` and whose axios cause carries HTTP status 403; every other
outcome (including success) yields `false`. -/
def is_v2_bridge (hubUrl : Option (List Char)) (hasAuthKey : Bool)
    (outcomes : ℕ → AttemptOutcome) : Bool :=
  match hubUrl with
  | none => false
  | some _ =>
    let r := sendRequest false hasAuthKey outcomes
    if r.success then false
    else if r.errorCode = some .unauthorized ∧ r.causeStatus = some 403 then
      true
    else false

/-- Claim C1 (counterexample): On a request whose first three attempts all
receive HTTP 429, `sendRequest` makes exactly 3 attempts (not a 4th), does
not succeed even though a 200 would follow, and the exhaustion failure
carries `ServerError` (mapped from the last 429 by `handleError`), not
`ServiceUnavailable`: the dedicated `ServiceUnavailable` throw after the loop
is unreachable. -/
theorem sendRequest_three429_then200_fails :
    sendRequest true true
        (fun n => if n ≤ 3 then .httpError 429 else .success) =
      { success := false, errorCode := some .serverError,
        causeStatus := some 429, attempts := 3, delays := [250, 500] } := by
  rfl

/-- Claim C1 (amended): For every request whose first two attempts receive
HTTP 429, `sendRequest` waits `250ms × attempt_index` before each retry
(strictly increasing delays 250, 500): a third attempt answering 200 succeeds
after exactly 3 attempts, while a third consecutive 429 exhausts the attempt
budget (`MAX_RETRIES = 3` total attempts) and fails with `ServerError`
carrying 3 attempts. -/
theorem sendRequest_retry429 (o : ℕ → AttemptOutcome)
    (h1 : o 1 = .httpError 429) (h2 : o 2 = .httpError 429) :
    (o 3 = .success →
      sendRequest true true o =
        { success := true, errorCode := none, causeStatus := none,
          attempts := 3, delays := [250 * 1, 250 * 2] }) ∧
    (o 3 = .httpError 429 →
      sendRequest true true o =
        { success := false, errorCode := some .serverError,
          causeStatus := some 429, attempts := 3,
          delays := [250 * 1, 250 * 2] }) ∧
    250 * 1 < 250 * 2 := by
  refine ⟨?_, ?_, by norm_num⟩ <;> intro h3 <;>
    simp [sendRequest, sendRequestGo, MAX_RETRIES, h1, h2, h3,
      classifyHttpStatus]

/-- Claim C1 (witness): Two 429 responses followed by a 200: success after
exactly 3 attempts with delays 250 ms and 500 ms. -/
theorem sendRequest_retry429_witness :
    sendRequest true true
        (fun n => if n = 3 then .success else .httpError 429) =
      { success := true, errorCode := none, causeStatus := none,
        attempts := 3, delays := [250 * 1, 250 * 2] } :=
  (sendRequest_retry429 (fun n => if n = 3 then .success else .httpError 429)
    rfl rfl).1 rfl

/-- The retry loop rejects with a `HueError` whose status is `Unauthorized`
and whose axios cause carries HTTP 403 exactly when some attempt in range
answered HTTP 403 and every earlier attempt answered one of the retried
statuses 429/503. -/
theorem sendRequestGo_unauth403_iff (o : ℕ → AttemptOutcome) :
    ∀ fuel retries delays, retries + fuel = MAX_RETRIES →
      (((sendRequestGo o fuel retries delays).success = false ∧
        (sendRequestGo o fuel retries delays).errorCode =
          some .unauthorized ∧
        (sendRequestGo o fuel retries delays).causeStatus = some 403) ↔
        (∃ k, retries + 1 ≤ k ∧ k ≤ MAX_RETRIES ∧ o k = .httpError 403 ∧
          ∀ j, retries + 1 ≤ j → j < k →
            (o j = .httpError 429 ∨ o j = .httpError 503))) := by
  intro fuel
  induction fuel with
  | zero =>
    intro retries delays hfr
    simp only [sendRequestGo]
    constructor
    · rintro ⟨-, he, -⟩
      exact absurd he (by decide)
    · rintro ⟨k, hk1, hk2, -, -⟩
      omega
  | succ fuel ih =>
    intro retries delays hfr
    simp only [sendRequestGo]
    rcases ho : o (retries + 1) with _ | _ | s | _ | _ <;> simp only [ho]
    case success =>
      constructor
      · rintro ⟨hs, -, -⟩
        exact absurd hs (by decide)
      · rintro ⟨k, hk1, hk2, h403, hprev⟩
        rcases eq_or_lt_of_le hk1 with hk | hk
        · rw [← hk, ho] at h403; cases h403
        · rcases hprev (retries + 1) (le_refl _) hk with h | h <;>
            rw [ho] at h <;> cases h
    case embeddedError =>
      constructor
      · rintro ⟨-, he, -⟩
        exact absurd he (by decide)
      · rintro ⟨k, hk1, hk2, h403, hprev⟩
        rcases eq_or_lt_of_le hk1 with hk | hk
        · rw [← hk, ho] at h403; cases h403
        · rcases hprev (retries + 1) (le_refl _) hk with h | h <;>
            rw [ho] at h <;> cases h
    case transportTimeout =>
      constructor
      · rintro ⟨-, he, -⟩
        exact absurd he (by decide)
      · rintro ⟨k, hk1, hk2, h403, hprev⟩
        rcases eq_or_lt_of_le hk1 with hk | hk
        · rw [← hk, ho] at h403; cases h403
        · rcases hprev (retries + 1) (le_refl _) hk with h | h <;>
            rw [ho] at h <;> cases h
    case transportUnreachable =>
      constructor
      · rintro ⟨-, he, -⟩
        exact absurd he (by decide)
      · rintro ⟨k, hk1, hk2, h403, hprev⟩
        rcases eq_or_lt_of_le hk1 with hk | hk
        · rw [← hk, ho] at h403; cases h403
        · rcases hprev (retries + 1) (le_refl _) hk with h | h <;>
            rw [ho] at h <;> cases h
    case httpError =>
      by_cases hc : (s = 429 ∨ s = 503) ∧ retries + 1 < MAX_RETRIES
      · rw [if_pos hc, ih (retries + 1) _ (by omega)]
        constructor
        · rintro ⟨k, hk1, hk2, h403, hprev⟩
          refine ⟨k, by omega, hk2, h403, ?_⟩
          intro j hj1 hj2
          by_cases hj : j = retries + 1
          · subst hj
            rw [ho]
            rcases hc.1 with rfl | rfl
            · exact Or.inl rfl
            · exact Or.inr rfl
          · exact hprev j (by omega) hj2
        · rintro ⟨k, hk1, hk2, h403, hprev⟩
          by_cases hk : k = retries + 1
          · subst hk
            rw [ho] at h403
            injection h403 with h'
            rcases hc.1 with rfl | rfl <;> omega
          · refine ⟨k, by omega, hk2, h403, ?_⟩
            intro j hj1 hj2
            exact hprev j (by omega) hj2
      · rw [if_neg hc]
        dsimp only
        constructor
        · rintro ⟨-, hcls, hcause⟩
          have hs : s = 403 := by
            injection hcause
          subst hs
          refine ⟨retries + 1, le_refl _, by omega, by rw [ho], ?_⟩
          intro j hj1 hj2
          omega
        · rintro ⟨k, hk1, hk2, h403, hprev⟩
          by_cases hk : k = retries + 1
          · subst hk
            rw [ho] at h403
            injection h403 with h'
            subst h'
            exact ⟨rfl, by simp [classifyHttpStatus], rfl⟩
          · have hmem := hprev (retries + 1) (le_refl _) (by omega)
            rw [ho] at hmem
            have hs' : s = 429 ∨ s = 503 := by
              rcases hmem with h | h
              · left; injection h
              · right; injection h
            have hnlt : ¬ retries + 1 < MAX_RETRIES := fun hlt => hc ⟨hs', hlt⟩
            omega

/-- Claim C7: `is_v2_bridge` returns `true` exactly when the unauthenticated
privileged call is rejected with a 403-shaped Unauthorized error — i.e. some
attempt `k ≤ MAX_RETRIES` answered HTTP 403 and every earlier attempt
answered one of the retried statuses 429/503. In every other outcome
(success, any other error status, or no configured hub URL) it returns
`false`; being a total function, it never throws. -/
theorem is_v2_bridge_iff (hubUrl : Option (List Char)) (hasAuthKey : Bool)
    (o : ℕ → AttemptOutcome) :
    is_v2_bridge hubUrl hasAuthKey o = true ↔
      hubUrl ≠ none ∧ ∃ k, 1 ≤ k ∧ k ≤ MAX_RETRIES ∧
        o k = .httpError 403 ∧
        ∀ j, 1 ≤ j → j < k →
          (o j = .httpError 429 ∨ o j = .httpError 503) := by
  cases hubUrl with
  | none => simp [is_v2_bridge]
  | some u =>
    have h1 : is_v2_bridge (some u) hasAuthKey o = true ↔
        ((sendRequestGo o MAX_RETRIES 0 []).success = false ∧
          (sendRequestGo o MAX_RETRIES 0 []).errorCode =
            some .unauthorized ∧
          (sendRequestGo o MAX_RETRIES 0 []).causeStatus = some 403) := by
      have hsr : sendRequest false hasAuthKey o =
          sendRequestGo o MAX_RETRIES 0 [] := by
        simp [sendRequest]
      simp only [is_v2_bridge, hsr]
      cases hs : (sendRequestGo o MAX_RETRIES 0 []).success
      · by_cases hcond : ((sendRequestGo o MAX_RETRIES 0 []).errorCode =
            some StatusCode.unauthorized ∧
            (sendRequestGo o MAX_RETRIES 0 []).causeStatus = some 403)
        · simp [hs, hcond]
        · simp [hs, hcond]
      · simp [hs]
    rw [h1]
    have h2 := sendRequestGo_unauth403_iff o MAX_RETRIES 0 [] (by simp)
    simp only [Nat.zero_add] at h2
    rw [h2]
    simp

/-- Claim C7 (witness): A single 429 followed by a 403 makes `is_v2_bridge`
return `true`; derived by applying the characterization at that concrete
outcome sequence. -/
theorem is_v2_bridge_iff_witness :
    is_v2_bridge (some ['h', 'u', 'b']) false
      (fun n => if n = 1 then .httpError 429 else .httpError 403) = true :=
  (is_v2_bridge_iff (some ['h', 'u', 'b']) false
      (fun n => if n = 1 then .httpError 429 else .httpError 403)).mpr
    ⟨by simp, 2, by norm_num, by norm_num [MAX_RETRIES], rfl, by
      intro j hj1 hj2
      have hj : j = 1 := by omega
      subst hj
      exact Or.inl rfl⟩

/-- Enumeration `LightStates` of the integration API used by `philips-hue.ts`. -/
inductive LightState where
  | on
  | off
  | unknown
  | unavailable
deriving DecidableEq

/-- A device fragment as consumed by `PhilipsHue.syncLightState`
(`Partial<LightResource>`): the `type` discriminator and the optional field
groups `on.on`, `dimming.brightness`, `color_temperature.{mirek,mirek_valid}`
and `color.xy.{x,y}`. -/
structure LightFragment where
  type : List Char
  onField : Option Bool
  dimming : Option ℚ
  color_temperature : Option (ℚ × Bool)
  xy : Option (ℚ × ℚ)

/-- The `lightState` attribute map built by `syncLightState`: a key is `some`
exactly when the source adds it to the published record. -/
structure LightAttrsUpdate where
  state : Option LightState
  brightness : Option ℤ
  colorTemperature : Option ℚ
  hue : Option ℤ
  saturation : Option ℤ
deriving DecidableEq

/-- The attribute map built by `PhilipsHue.syncLightState` for a fragment:
* `State` iff `light.on` is present (`On`/`Off` from `light.on.on`);
* `Brightness = percentToBrightness(light.dimming.brightness)` iff
  `light.dimming` is present;
* `ColorTemperature = mirekToColorTemp(mirek)` iff `light.color_temperature`
  is present with `mirek_valid`;
* `Hue`/`Saturation` from
  `convertXYtoHSV(x, y, light.dimming?.brightness)` iff `light.color.xy` is
  present (the JS optional chain passes `undefined`, hence the default
  lightness 1, when `dimming` is absent). -/
def syncLightStateAttrs (light : LightFragment) : LightAttrsUpdate :=
  { state :=
      match light.onField with
      | some b => some (if b then .on else .off)
      | none => none
    brightness :=
      match light.dimming with
      | some p => some (percentToBrightness p)
      | none => none
    colorTemperature :=
      match light.color_temperature with
      | some (m, valid) => if valid then some (mirekToColorTemp m) else none
      | none => none
    hue :=
      match light.xy with
      | some (x, y) => some ((convertXYtoHSV x y (light.dimming.getD 1)).hue)
      | none => none
    saturation :=
      match light.xy with
      | some (x, y) => some ((convertXYtoHSV x y (light.dimming.getD 1)).sat)
      | none => none }

/-- Normalized attributes stored for a configured entity. -/
structure EntityAttrs where
  state : Option LightState
  brightness : Option ℤ
  colorTemperature : Option ℚ
  hue : Option ℤ
  saturation : Option ℤ
deriving DecidableEq

/-- The host library `updateEntityAttributes(entityId, lightState)` merges
the supplied attribute keys into the entity's attributes and leaves every
other attribute untouched (integration-API contract for attribute-set
updates). -/
def applyAttrsUpdate (old : EntityAttrs) (upd : LightAttrsUpdate) :
    EntityAttrs :=
  { state := match upd.state with
      | some s => some s
      | none => old.state
    brightness := match upd.brightness with
      | some b => some b
      | none => old.brightness
    colorTemperature := match upd.colorTemperature with
      | some c => some c
      | none => old.colorTemperature
    hue := match upd.hue with
      | some h => some h
      | none => old.hue
    saturation := match upd.saturation with
      | some s => some s
      | none => old.saturation }

/-- Source `PhilipsHue.syncLightState` acting on the configured-entity registry
(modelled as a partial map from entity id to attributes): fragments whose
`type` is not `"light"` are ignored, fragments whose entity id is not
configured are skipped, and otherwise the attribute map built from the
fragment is merged into that entity's attributes. -/
def syncLightState (entityId : List Char) (light : LightFragment)
    (registry : List Char → Option EntityAttrs) :
    List Char → Option EntityAttrs :=
  if light.type ≠ ['l', 'i', 'g', 'h', 't'] then registry
  else
    match registry entityId with
    | none => registry
    | some attrs => fun id =>
        if id = entityId then
          some (applyAttrsUpdate attrs (syncLightStateAttrs light))
        else registry id

/-- Claim C6: For every event-stream device fragment, `syncLightState` updates
only the attributes whose fields are present in the fragment (on/off,
brightness, color temperature only when its validity flag is set, xy color
only when present); attributes corresponding to absent fields are left
unchanged, no other entity is touched, and a fragment whose device id is not
in the registry changes no state at all. -/
theorem syncLightState_frame (eid : List Char) (light : LightFragment)
    (registry : List Char → Option EntityAttrs) :
    (registry eid = none → syncLightState eid light registry = registry) ∧
    (∀ id, id ≠ eid → syncLightState eid light registry id = registry id) ∧
    (∀ a, registry eid = some a →
      ∃ a', syncLightState eid light registry eid = some a' ∧
        (light.onField = none → a'.state = a.state) ∧
        (light.dimming = none → a'.brightness = a.brightness) ∧
        ((∀ m : ℚ, light.color_temperature ≠ some (m, true)) →
          a'.colorTemperature = a.colorTemperature) ∧
        (light.xy = none → a'.hue = a.hue ∧ a'.saturation = a.saturation) ∧
        (light.type = ['l', 'i', 'g', 'h', 't'] →
          (∀ b, light.onField = some b →
            a'.state = some (if b then LightState.on else LightState.off)) ∧
          (∀ p, light.dimming = some p →
            a'.brightness = some (percentToBrightness p)) ∧
          (∀ m, light.color_temperature = some (m, true) →
            a'.colorTemperature = some (mirekToColorTemp m)) ∧
          (∀ x y, light.xy = some (x, y) →
            a'.hue = some ((convertXYtoHSV x y (light.dimming.getD 1)).hue) ∧
            a'.saturation =
              some ((convertXYtoHSV x y (light.dimming.getD 1)).sat)))) := by
  unfold syncLightState
  by_cases ht : light.type ≠ ['l', 'i', 'g', 'h', 't']
  · rw [if_pos ht]
    refine ⟨fun _ => rfl, fun _ _ => rfl, fun a ha => ⟨a, ha, fun _ => rfl,
      fun _ => rfl, fun _ => rfl, fun _ => ⟨rfl, rfl⟩,
      fun htype => absurd htype ht⟩⟩
  · rw [if_neg ht]
    rcases hreg : registry eid with _ | a0
    · exact ⟨fun _ => rfl, fun _ _ => rfl, fun a ha => by cases ha⟩
    · refine ⟨(fun hnone => by cases hnone),
        (fun id hid => by simp [hid]), fun a ha => ?_⟩
      have haa : a0 = a := by
        injection ha
      subst haa
      refine ⟨applyAttrsUpdate a0 (syncLightStateAttrs light), by simp,
        ?_, ?_, ?_, ?_, ?_⟩
      · intro hon
        simp [applyAttrsUpdate, syncLightStateAttrs, hon]
      · intro hdim
        simp [applyAttrsUpdate, syncLightStateAttrs, hdim]
      · intro hct
        rcases hct' : light.color_temperature with _ | ⟨m, valid⟩
        · simp [applyAttrsUpdate, syncLightStateAttrs, hct']
        · cases valid
          · simp [applyAttrsUpdate, syncLightStateAttrs, hct']
          · exact absurd hct' (hct m)
      · intro hxy
        constructor <;> simp [applyAttrsUpdate, syncLightStateAttrs, hxy]
      · intro _
        refine ⟨?_, ?_, ?_, ?_⟩
        · intro b hb
          simp [applyAttrsUpdate, syncLightStateAttrs, hb]
        · intro p hp
          simp [applyAttrsUpdate, syncLightStateAttrs, hp]
        · intro m hm
          simp [applyAttrsUpdate, syncLightStateAttrs, hm]
        · intro x y hxy
          constructor <;> simp [applyAttrsUpdate, syncLightStateAttrs, hxy]

/-- Sample configured-entity attributes used in concrete instantiations. -/
def sampleAttrs : EntityAttrs :=
  { state := some .off, brightness := some 100, colorTemperature := some 50,
    hue := some 10, saturation := some 20 }

/-- Sample registry holding one configured entity `l1`. -/
def sampleRegistry : List Char → Option EntityAttrs :=
  fun id => if id = ['l', '1'] then some sampleAttrs else none

/-- Sample event-stream fragment carrying only the `on` field. -/
def sampleOnFragment : LightFragment :=
  { type := ['l', 'i', 'g', 'h', 't'], onField := some true, dimming := none,
    color_temperature := none, xy := none }

/-- Claim C6 (witness): An `on`-only fragment for configured entity `l1` flips
only the state; brightness, color temperature, hue and saturation stay
untouched, and an unconfigured id leaves the registry unchanged. -/
theorem syncLightState_frame_witness :
    syncLightState ['l', '1'] sampleOnFragment sampleRegistry ['l', '1'] =
      some { state := some .on, brightness := some 100,
             colorTemperature := some 50, hue := some 10,
             saturation := some 20 } ∧
    syncLightState ['l', '2'] sampleOnFragment sampleRegistry =
      sampleRegistry := by
  constructor
  · obtain ⟨a', ha', hst, hbr, hct, hxy, hpos⟩ :=
      (syncLightState_frame ['l', '1'] sampleOnFragment
        sampleRegistry).2.2 sampleAttrs rfl
    have h1 := (hpos rfl).1 true rfl
    have h2 := hbr rfl
    have h3 := hct (by intro m hm; simp [sampleOnFragment] at hm)
    have h4 := hxy rfl
    rw [ha']
    obtain ⟨s, b, c, hh, sa⟩ := a'
    simp only [sampleAttrs] at h1 h2 h3 h4
    simp_all
  · exact (syncLightState_frame ['l', '2'] sampleOnFragment sampleRegistry).1
      rfl

/-- Claim C2 (amended): Every attribute published by the synchronization
engine's `syncLightState` obeys: state is only ever `On`/`Off`, hue lies in
`[0, 359]`, saturation lies in `[0, 255]` (a 0–255 scale, not 0–100),
brightness is only clamped from below (`≥ 1`; it lies in `[1, 255]` when the
hub-native dimming percent is within `[0, 100]`, with no upper clamping), and
the published color temperature is a linear remap of mirek with no clamping
at all — it lies in `[0, 100]` when the hub-native mirek is within its
`[153, 500]` range. -/
theorem syncLightStateAttrs_ranges (light : LightFragment) :
    (∀ s, (syncLightStateAttrs light).state = some s →
      s = LightState.on ∨ s = LightState.off) ∧
    (∀ b, (syncLightStateAttrs light).brightness = some b → 1 ≤ b) ∧
    (∀ p, light.dimming = some p → 0 ≤ p → p ≤ 100 →
      ∀ b, (syncLightStateAttrs light).brightness = some b → b ≤ 255) ∧
    (∀ h, (syncLightStateAttrs light).hue = some h → 0 ≤ h ∧ h ≤ 359) ∧
    (∀ s, (syncLightStateAttrs light).saturation = some s →
      0 ≤ s ∧ s ≤ 255) ∧
    (∀ m, light.color_temperature = some (m, true) → 153 ≤ m → m ≤ 500 →
      ∀ c, (syncLightStateAttrs light).colorTemperature = some c →
        0 ≤ c ∧ c ≤ 100) := by
  refine ⟨?_, ?_, ?_, ?_, ?_, ?_⟩
  · intro s hs
    rcases hon : light.onField with _ | b
    · simp [syncLightStateAttrs, hon] at hs
    · simp only [syncLightStateAttrs, hon] at hs
      injection hs with hs'
      cases b
      · right; rw [← hs']; simp
      · left; rw [← hs']; simp
  · intro b hb
    rcases hdim : light.dimming with _ | p
    · simp [syncLightStateAttrs, hdim] at hb
    · simp only [syncLightStateAttrs, hdim] at hb
      injection hb with hb'
      rw [← hb']
      exact le_max_left _ _
  · intro p hp h0 h100 b hb
    simp only [syncLightStateAttrs, hp] at hb
    injection hb with hb'
    rw [← hb']
    unfold percentToBrightness
    refine max_le (by norm_num) (jsRound_le_of_le ?_)
    rw [div_mul_eq_mul_div, div_le_iff₀ (by norm_num : (0 : ℚ) < 100)]
    push_cast
    linarith
  · intro h hh
    rcases hxy : light.xy with _ | ⟨x, y⟩
    · simp [syncLightStateAttrs, hxy] at hh
    · simp only [syncLightStateAttrs, hxy] at hh
      injection hh with hh'
      rw [← hh']
      exact convertXYtoHSV_hue_mem x y (light.dimming.getD 1)
  · intro s hs
    rcases hxy : light.xy with _ | ⟨x, y⟩
    · simp [syncLightStateAttrs, hxy] at hs
    · simp only [syncLightStateAttrs, hxy] at hs
      injection hs with hs'
      rw [← hs']
      exact convertXYtoHSV_sat_mem x y (light.dimming.getD 1)
  · intro m hm h153 h500 c hc
    simp only [syncLightStateAttrs, hm] at hc
    rw [if_pos trivial] at hc
    injection hc with hc'
    rw [← hc']
    unfold mirekToColorTemp
    constructor
    · exact mul_nonneg (div_nonneg (by linarith) (by norm_num)) (by norm_num)
    · have hd : (m - 153) / 347 ≤ 1 := by
        rw [div_le_one (by norm_num)]
        linarith
      linarith

/-- Claim C2 (counterexample): A fragment with hub-native dimming percent 100,
a valid mirek of 847 and xy `(0.7, 0.3)` publishes brightness 255,
color-temperature 200 and saturation 255 — all outside the claimed
normalized ranges (brightness 1–100, color-temperature 0–100, saturation
0–100); the out-of-range mirek is converted, not clamped. -/
theorem syncLightStateAttrs_out_of_range :
    (syncLightStateAttrs
        { type := ['l', 'i', 'g', 'h', 't'], onField := none,
          dimming := some 100, color_temperature := some (847, true),
          xy := some (7 / 10, 3 / 10) }).brightness = some 255 ∧
    (syncLightStateAttrs
        { type := ['l', 'i', 'g', 'h', 't'], onField := none,
          dimming := some 100, color_temperature := some (847, true),
          xy := some (7 / 10, 3 / 10) }).colorTemperature = some 200 ∧
    (syncLightStateAttrs
        { type := ['l', 'i', 'g', 'h', 't'], onField := none,
          dimming := some 100, color_temperature := some (847, true),
          xy := some (7 / 10, 3 / 10) }).saturation = some 255 ∧
    ¬ ((255 : ℤ) ≤ 100) ∧ ¬ ((200 : ℚ) ≤ 100) := by
  refine ⟨?_, ?_, ?_, by norm_num, by norm_num⟩
  · norm_num [syncLightStateAttrs, percentToBrightness, jsRound, max_def]
  · norm_num [syncLightStateAttrs, mirekToColorTemp]
  · norm_num [syncLightStateAttrs, convertXYtoHSV, linearRGB, satScaled,
      hueH, jsRound, jsRem, max_def, min_def]

/-- Sample fragment with every field group present and in hub range. -/
def sampleFullFragment : LightFragment :=
  { type := ['l', 'i', 'g', 'h', 't'], onField := some true,
    dimming := some 50, color_temperature := some (300, true),
    xy := some (7 / 10, 3 / 10) }

/-- Claim C2 (witness): The published values for an in-range fragment
(dimming 50, mirek 300) satisfy the amended bounds. -/
theorem syncLightStateAttrs_ranges_witness :
    1 ≤ percentToBrightness 50 ∧ percentToBrightness 50 ≤ 255 ∧
    0 ≤ mirekToColorTemp 300 ∧ mirekToColorTemp 300 ≤ 100 ∧
    0 ≤ (convertXYtoHSV (7 / 10) (3 / 10)
      ((sampleFullFragment.dimming).getD 1)).sat ∧
    (convertXYtoHSV (7 / 10) (3 / 10)
      ((sampleFullFragment.dimming).getD 1)).sat ≤ 255 := by
  have thm := syncLightStateAttrs_ranges sampleFullFragment
  have hbr := thm.2.1 (percentToBrightness 50) rfl
  have hbru := thm.2.2.1 50 rfl (by norm_num) (by norm_num)
    (percentToBrightness 50) rfl
  have hct := thm.2.2.2.2.2 300 rfl (by norm_num) (by norm_num)
    (mirekToColorTemp 300) rfl
  have hsat := thm.2.2.2.2.1
    ((convertXYtoHSV (7 / 10) (3 / 10)
      ((sampleFullFragment.dimming).getD 1)).sat) rfl
  exact ⟨hbr, hbru, hct.1, hct.2, hsat.1, hsat.2⟩

/-- A configured entity as seen by `PhilipsHue.updateEntityStates`: its id
and its current `State` attribute (`none` when the attribute is absent). -/
structure ConfiguredEntity where
  id : List Char
  state : Option LightState
deriving DecidableEq

/-- Source `PhilipsHue.updateEntityStates(state)`: walks the configured entities in
order and, for each one whose `State` attribute differs from the target
state, publishes `{State: state}` via `updateEntityAttributes`; entities
already in the target state are skipped (no redundant publish). Returns the
resulting entity list and the ordered list of publishes. -/
def updateEntityStates (state : LightState) :
    List ConfiguredEntity →
      List ConfiguredEntity × List (List Char × LightState)
  | [] => ([], [])
  | e :: es =>
    let rest := updateEntityStates state es
    if e.state ≠ some state then
      ({ id := e.id, state := some state } :: rest.1, (e.id, state) :: rest.2)
    else
      (e :: rest.1, rest.2)

/-- The persisted hub block read by `setupEventStreamEvents`
(`config.getHubConfig()`): ip and username. -/
structure HubCfg where
  ip : List Char
  username : List Char

/-- Observable effect of the `disconnected` handler installed by
`PhilipsHue.setupEventStreamEvents`. -/
structure DisconnectResult where
  entities : List ConfiguredEntity
  publishes : List (List Char × LightState)
  delayMs : ℕ
  reconnects : Bool

/-- The event-stream `disconnected` handler: sets all configured lights to
`Unknown` via `updateEntityStates(LightStates.Unknown)`, waits
`delay(2000)` and reconnects when a hub config with a (truthy, i.e.
non-empty) ip is present. -/
def onEventStreamDisconnected (hubConfig : Option HubCfg)
    (entities : List ConfiguredEntity) : DisconnectResult :=
  { entities := (updateEntityStates .unknown entities).1
    publishes := (updateEntityStates .unknown entities).2
    delayMs := 2000
    reconnects :=
      match hubConfig with
      | some cfg => if cfg.ip = [] then false else true
      | none => false }

/-- Lemma: `updateEntityStates` publishes exactly for the entities not already in
the target state and leaves every entity in the target state afterwards. -/
theorem updateEntityStates_spec (st : LightState)
    (es : List ConfiguredEntity) :
    (updateEntityStates st es).1 =
      es.map (fun e => { id := e.id, state := some st }) ∧
    (updateEntityStates st es).2 =
      (es.filter (fun e => e.state ≠ some st)).map (fun e => (e.id, st)) := by
  induction es with
  | nil => simp [updateEntityStates]
  | cons e es ih =>
    by_cases hc : e.state ≠ some st
    · simp only [updateEntityStates, if_pos hc, List.map_cons,
        List.filter_cons]
      rw [if_pos (by simpa using hc)]
      simp [ih.1, ih.2]
    · have hc' : e.state = some st := not_not.mp hc
      simp only [updateEntityStates, if_neg hc, List.map_cons,
        List.filter_cons]
      rw [if_neg (by simpa using hc)]
      obtain ⟨eid, est⟩ := e
      simp only at hc'
      subst hc'
      simp [ih.1, ih.2]

/-- Claim C5: When the event stream signals `disconnected` (which presupposes
a configured hub, i.e. a non-empty ip): every currently-registered entity
ends in state `Unknown`, a `{State: Unknown}` publish is emitted exactly for
the entities whose state was not already `Unknown` (no redundant downstream
notification), and a reconnect is scheduled after the fixed 2000 ms delay. -/
theorem onEventStreamDisconnected_spec (ip username : List Char)
    (hip : ip ≠ []) (entities : List ConfiguredEntity) :
    (onEventStreamDisconnected (some ⟨ip, username⟩) entities).publishes =
      (entities.filter (fun e => e.state ≠ some .unknown)).map
        (fun e => (e.id, .unknown)) ∧
    (onEventStreamDisconnected (some ⟨ip, username⟩) entities).entities =
      entities.map (fun e => { id := e.id, state := some .unknown }) ∧
    (onEventStreamDisconnected (some ⟨ip, username⟩) entities).delayMs =
      2000 ∧
    (onEventStreamDisconnected (some ⟨ip, username⟩) entities).reconnects =
      true := by
  have h := updateEntityStates_spec .unknown entities
  refine ⟨h.2, h.1, rfl, ?_⟩
  simp [onEventStreamDisconnected, hip]

/-- Claim C5 (witness): With two registered entities, one `On` and one already
`Unknown`, exactly one publish is emitted, both end `Unknown`, and the
reconnect fires after 2000 ms. -/
theorem onEventStreamDisconnected_spec_witness :
    (onEventStreamDisconnected (some ⟨['1'], []⟩)
        [⟨['a'], some .on⟩, ⟨['b'], some .unknown⟩]).publishes =
      [(['a'], LightState.unknown)] ∧
    (onEventStreamDisconnected (some ⟨['1'], []⟩)
        [⟨['a'], some .on⟩, ⟨['b'], some .unknown⟩]).entities =
      [⟨['a'], some .unknown⟩, ⟨['b'], some .unknown⟩] ∧
    (onEventStreamDisconnected (some ⟨['1'], []⟩)
        [⟨['a'], some .on⟩, ⟨['b'], some .unknown⟩]).delayMs = 2000 ∧
    (onEventStreamDisconnected (some ⟨['1'], []⟩)
        [⟨['a'], some .on⟩, ⟨['b'], some .unknown⟩]).reconnects = true := by
  have h := onEventStreamDisconnected_spec ['1'] [] (by decide)
    [⟨['a'], some .on⟩, ⟨['b'], some .unknown⟩]
  exact ⟨h.1.trans (by decide), h.2.1.trans (by decide), h.2.2.1, h.2.2.2⟩

/-- A discovery candidate collected by `handleHubDiscovery` (mDNS service or
manual address): id, ip and display name. -/
structure HueHub where
  id : List Char
  ip : List Char
  name : List Char
deriving DecidableEq

/-- A JavaScript value as tested for truthiness by `Array.prototype.filter`:
either a plain boolean, or a `Promise` (which is an object and therefore
always truthy, whatever boolean it will later resolve to). -/
inductive JsValue where
  | bool (b : Bool)
  | promise (resolvesTo : Bool)

/-- JS truthiness: a boolean is its own truth value; a `Promise` object is
always truthy. -/
def jsTruthy : JsValue → Bool
  | .bool b => b
  | .promise _ => true

/-- The eventual boolean the async filter callback of `handleHubDiscovery`
would resolve to for a candidate: `true` iff `is_hue_bridge` succeeds and
`is_v2_bridge` returns `true` (any throw or a non-v2 bridge resolves
`false`). -/
def hubCheckResolvesTo (isHueBridge isV2Bridge : HueHub → Bool)
    (hub : HueHub) : Bool :=
  isHueBridge hub && isV2Bridge hub

/-- Source `setup.ts` `handleHubDiscovery`:
`const filteredHubs = this.hubs.filter(async (hub) => {...})` — the callback
is `async`, so `filter` receives a `Promise` for every candidate and tests
the promise itself, not its resolved boolean, for truthiness. -/
def filteredHubs (isHueBridge isV2Bridge : HueHub → Bool)
    (hubs : List HueHub) : List HueHub :=
  hubs.filter (fun hub =>
    jsTruthy (.promise (hubCheckResolvesTo isHueBridge isV2Bridge hub)))

/-- The dropdown item ids of the device-choice screen built from
`filteredHubs` (`hubItems = filteredHubs.map(...)`). -/
def hubItems (isHueBridge isV2Bridge : HueHub → Bool)
    (hubs : List HueHub) : List (List Char) :=
  (filteredHubs isHueBridge isV2Bridge hubs).map (fun hub => hub.id)

/-- Claim C3 (bug evidence): Because the verification callback is `async`,
`Array.prototype.filter` sees a (truthy) `Promise` for every candidate, so
`filteredHubs` keeps every collected candidate regardless of the identity
and protocol-version checks; in particular a candidate failing both checks
still appears in the device-choice list. -/
theorem handleHubDiscovery_filter_bug :
    (∀ (isHueBridge isV2Bridge : HueHub → Bool) (hubs : List HueHub),
      filteredHubs isHueBridge isV2Bridge hubs = hubs) ∧
    hubItems (fun _ => false) (fun _ => false)
        [{ id := ['b', 'a', 'd'], ip := ['1', '0', '.', '0', '.', '0', '.', '9', '9'],
           name := ['x'] }] = [['b', 'a', 'd']] := by
  constructor
  · intro ihb iv2 hubs
    simp [filteredHubs, jsTruthy]
  · rfl
